import Mathlib

/-!
A shallow embedding of `src/prtool.py`.

Strings are handled through their character lists, and every Python string
helper the script relies on (`str.splitlines`, `str.strip`, the truthiness
of `line.strip()`, `str.find(sub) >= 0`, `int(...)`) is re-implemented below
by structural recursion, so that all definitions evaluate by kernel
reduction.  External collaborators are modelled by their documented
behaviour: a linear git history as an oldest-first list of commits,
`Repo.iter_commits` (which wraps `git rev-list`) as a newest-first
traversal, `git branch --contains` as its textual branch listing, and the
GitHub API's open pull requests as a list in platform order.  The script
itself becomes `runScript`, a function from the surrounding world to the
run's outcome (exit code or uncaught exception) plus the ordered list of
git/remote mutations it performed.
-/

namespace Prtool

/-- The whitespace characters Python's `str.strip()` removes. -/
def isPySpace (c : Char) : Bool :=
  c = ' ' || c = '\t' || c = '\n' || c = '\r' || c = '\x0b' || c = '\x0c'

/-- Python `str.strip()`: drop leading and trailing whitespace. -/
def pyStrip (s : String) : String :=
  String.mk (((s.data.dropWhile isPySpace).reverse.dropWhile isPySpace).reverse)

/-- Truthiness of Python `line.strip()`: the line holds a character that is
not whitespace. -/
def nonBlank (l : String) : Bool :=
  l.data.any (fun c => !(isPySpace c))

/-- Split a character list at every newline; the piece after the last
newline is always present, so `"a\n"` gives `["a", ""]` and `""` gives
`[""]`. -/
def breakLines : List Char → List (List Char)
  | [] => [[]]
  | c :: cs =>
    if c = '\n' then [] :: breakLines cs
    else
      match breakLines cs with
      | [] => [[c]]
      | l :: ls => (c :: l) :: ls

/-- Python `str.splitlines()` on newline-separated text: `breakLines`, minus
the empty piece a final newline leaves, and `[]` on the empty string. -/
def splitlines (s : String) : List String :=
  let ls := breakLines s.data
  (if ls.getLast? = some [] then ls.dropLast else ls).map String.mk

/-- Python `sep.join(items)`. -/
def joinWith (sep : String) : List String → String
  | [] => ""
  | [x] => x
  | x :: xs => x ++ sep ++ joinWith sep xs

/-- Whether the first list begins the second, character by character. -/
def leadsChars : List Char → List Char → Bool
  | [], _ => true
  | _ :: _, [] => false
  | a :: as, b :: bs => a == b && leadsChars as bs

/-- Python `s.find(sub) >= 0`: `sub` occurs somewhere inside `s`. -/
def containsSubstring (s sub : String) : Bool :=
  (List.range (s.data.length + 1)).any (fun i => leadsChars sub.data (s.data.drop i))

/-- The value of a non-empty, all-digit character list. -/
def digitsVal? (cs : List Char) : Option Nat :=
  if cs.isEmpty then none
  else if cs.all Char.isDigit then
    some (cs.foldl (fun n c => n * 10 + (c.toNat - 48)) 0)
  else none

/-- Python `int(choice)` on the menu inputs the script reads: digits with an
optional leading minus sign; any other input raises `ValueError`, modelled
as `none`.  (Python also accepts surrounding whitespace and a plus sign;
those inputs never decide a claim here.) -/
def pyInt? (s : String) : Option Int :=
  match s.data with
  | '-' :: rest => (digitsVal? rest).map (fun n => -(n : Int))
  | cs => (digitsVal? cs).map (fun n => (n : Int))

/-- A git commit as the script reads it (source lines 125-131): content hash
and full message. -/
structure Commit where
  hexsha : String
  message : String
  deriving DecidableEq, BEq

/-- An open pull request as the scan loop at source lines 211-220 reads it:
head branch name and head author login. -/
structure PullReq where
  headRef : String
  headUserLogin : String
  deriving DecidableEq, BEq

/-- A linear git history, oldest commit first.  `rangeSelect hist base tip`
models the range mode of the Commit Selector (source line 129):
`repo.iter_commits("base..tip")` wraps `git rev-list base..tip`, which
emits the commits reachable from the entry at index `tip` but not from the
entry at index `base` in reverse chronological order, newest first. -/
def rangeSelect (hist : List Commit) (base tip : Nat) : List Commit :=
  ((hist.drop (base + 1)).take (tip - base)).reverse

/-- One commit's lines of the multi-commit markdown body (source lines
183-190): the first message line, stripped, as a `- ` list item, then every
non-blank remaining line indented two further spaces.  `none` models the
`IndexError` that `commit_message.splitlines()[0]` raises on a message with
no lines. -/
def commitItemLines? (m : String) : Option (List String) :=
  match splitlines m with
  | [] => none
  | first :: rest =>
    some (("- " ++ pyStrip first) :: (rest.filter nonBlank).map (fun l => "  " ++ l))

/-- The flat `markdown_commit_messages` list that the loop at source lines
183-190 accumulates over all commit messages. -/
def markdownItems? : List String → Option (List String)
  | [] => some []
  | m :: rest =>
    match commitItemLines? m, markdownItems? rest with
    | some ls, some lss => some (ls ++ lss)
    | _, _ => none

/-- The multi-commit PR body (source lines 180-192): a `####` heading line
holding the chosen title, a blank line, then the accumulated item lines
joined by newline. -/
def composeMulti? (title : String) (msgs : List String) : Option String :=
  (markdownItems? msgs).map
    (fun items => "#### " ++ title ++ "\n\n" ++ joinWith "\n" items)

/-- The single-commit PR body (source lines 170-178): the non-blank lines
after the first, verbatim (the `f"{line}"` in the source is the identity),
joined by newline; no heading, no list markers. -/
def composeSingleBody (m : String) : String :=
  joinWith "\n" (((splitlines m).drop 1).filter nonBlank)

/-- The dispatch at source line 170: exactly one commit gets the short body,
any other count the long markdown body. -/
def composeBody? (msgs : List String) (title : String) : Option String :=
  if msgs.length = 1 then
    match msgs.head? with
    | none => none
    | some m => some (composeSingleBody m)
  else composeMulti? title msgs

/-- Source lines 202-203: `pr_title.replace(" ", "-")` (a single-character
pattern, so each space becomes one dash) and then
`"".join([c for c in ... if c.isalnum() or c == "-"])`.  `Char.isAlphanum`
agrees with Python `str.isalnum` on the ASCII titles the script handles. -/
def normalizeTitle (t : String) : String :=
  String.mk ((t.data.map (fun c => if c = ' ' then '-' else c)).filter
    (fun c => c.isAlphanum || c == '-'))

/-- Source line 204: the fixed `pr/` text prepended to the normalized
title. -/
def prBranchName (t : String) : String :=
  "pr/" ++ normalizeTitle t

/-- The scan over open pull requests (source lines 211-220): skip any pull
request whose head author login differs from the authenticated login
(`continue`), stop at the first whose head branch equals the computed PR
branch name (`break`). -/
def findExistingPR : List PullReq → String → String → Option PullReq
  | [], _, _ => none
  | pr :: rest, login, branch =>
    if pr.headUserLogin != login then findExistingPR rest login branch
    else if pr.headRef == branch then some pr
    else findExistingPR rest login branch

/-- The text `git branch --contains sha` prints, given the branches that
contain the commit: one branch per line, the checked-out branch marked
`* `, every other branch indented two spaces. -/
def branchContainsOutput (current : String) (branches : List String) : String :=
  joinWith "\n" (branches.map (fun b => (if b = current then "* " else "  ") ++ b))

/-- Source line 135: the Branch Validator accepts a commit exactly when the
work branch name occurs as a substring of the `git branch --contains`
output (`.find(work_branch_name) >= 0`). -/
def workBranchCheck (workBranch output : String) : Bool :=
  containsSubstring output workBranch

/-- The loop body of source lines 133-137 as a predicate on one commit hash:
`true` when the script aborts for this hash.  At validation time the work
branch is the checked-out branch, so it is passed as `current`. -/
def badCommit (workBranch : String) (branchesOf : String → List String)
    (sha : String) : Bool :=
  !(workBranchCheck workBranch (branchContainsOutput workBranch (branchesOf sha)))

/-- How a run of the script ends: `exit c` for `sys.exit(c)` or for falling
off the end (`exit 0`), `crash` for an uncaught Python exception. -/
inductive Outcome where
  | exit (code : Nat)
  | crash
  deriving DecidableEq, BEq

/-- A mutation of local git state or of the remote, in the order the script
performs them. -/
inductive Ev where
  | checkout (branch : String)
  | fetch (remote branch : String)
  | rebase (onto branch : String)
  | checkoutNewBranch (name startPoint : String)
  | cherryPick (sha : String)
  | forcePush (remote branch : String)
  | createPR
  | editPR
  deriving DecidableEq, BEq

/-- Everything the script reads from its surroundings: the preconditions it
tests, the work branch and login, the resolved commit selection, the
branch-containment answers git would give, the two interactive inputs and
the platform's open pull requests. -/
structure Env where
  hasGitDir : Bool
  hasUpstreamRemote : Bool
  isDirty : Bool
  workBranch : String
  login : String
  commits : List Commit
  branchesContaining : String → List String
  choiceInput : String
  newTitleInput : String
  confirmInput : String
  openPRs : List PullReq

/-- The hard-coded upstream reference `upstream/main` (source line 58). -/
def upstreamRef : String :=
  "upstream/main"

/-- The git mutations of the Sync phase (source lines 97-113): checkout the
work branch, fetch upstream, rebase onto `upstream/main`, checkout again. -/
def preEvents (workBranch : String) : List Ev :=
  [Ev.checkout workBranch, Ev.fetch "upstream" "main",
   Ev.rebase upstreamRef workBranch, Ev.checkout workBranch]

/-- The title derivation (source lines 139-165).  With more than one commit
the menu itself is built from `commit_message.splitlines()[0]` (line 145),
so a message with no lines crashes before the prompt; `q` exits 0, `n`
takes the typed title, a number outside `1..len` exits 1, a non-numeric
choice raises `ValueError`.  With at most one commit the title is
`commit_messages[0].splitlines()[0].strip()` (line 165), which raises
`IndexError` when the selection is empty. -/
def titleStep (msgs : List String) (choiceInput newTitleInput : String) :
    Except Outcome String :=
  if 1 < msgs.length then
    if msgs.any (fun m => (splitlines m).isEmpty) then Except.error Outcome.crash
    else if choiceInput = "q" then Except.error (Outcome.exit 0)
    else if choiceInput = "n" then Except.ok newTitleInput
    else
      match pyInt? choiceInput with
      | none => Except.error Outcome.crash
      | some k =>
        if k < 1 ∨ (msgs.length : Int) < k then Except.error (Outcome.exit 1)
        else
          match msgs[(k - 1).toNat]? with
          | none => Except.error Outcome.crash
          | some m =>
            match (splitlines m).head? with
            | none => Except.error Outcome.crash
            | some l => Except.ok (pyStrip l)
  else
    match msgs.head? with
    | none => Except.error Outcome.crash
    | some m =>
      match (splitlines m).head? with
      | none => Except.error Outcome.crash
      | some l => Except.ok (pyStrip l)

/-- The whole script as a function of its surroundings, in source order:
the `.git` check (line 46), the upstream-remote search (line 86), the
dirty-working-copy gate (line 91), the Sync mutations (lines 97-113), the
branch-containment validation (lines 133-137), title derivation and body
composition, the PR scan, the confirmation prompt (line 237), and finally
branch recreation, cherry-picks in selection order, force-push, PR
create/update and the closing checkout (lines 242-277).  The result is the
outcome together with the ordered mutations performed. -/
def runScript (env : Env) : Outcome × List Ev :=
  if env.hasGitDir = false then (Outcome.exit 1, [])
  else if env.hasUpstreamRemote = false then (Outcome.exit 1, [])
  else if env.isDirty = true then (Outcome.exit 1, [])
  else
    let evs := preEvents env.workBranch
    let shas := env.commits.map Commit.hexsha
    let msgs := env.commits.map Commit.message
    if shas.any (badCommit env.workBranch env.branchesContaining) then
      (Outcome.exit 1, evs)
    else
      match titleStep msgs env.choiceInput env.newTitleInput with
      | Except.error out => (out, evs)
      | Except.ok prTitle =>
        match composeBody? msgs prTitle with
        | none => (Outcome.crash, evs)
        | some _ =>
          let branch := prBranchName prTitle
          let existing := findExistingPR env.openPRs env.login branch
          if env.confirmInput ≠ "y" then (Outcome.exit 1, evs)
          else
            (Outcome.exit 0,
              evs ++ [Ev.checkoutNewBranch branch upstreamRef]
                  ++ shas.map Ev.cherryPick
                  ++ [Ev.forcePush env.login branch,
                      (if existing.isSome then Ev.editPR else Ev.createPR),
                      Ev.checkout env.workBranch])

/-! Definitions written from the words of the specification, to be compared
with the ones translated from the source. -/

/-- From the spec, claim C4: the per-commit lines of the multi-commit body,
in its words: a list item with the commit message's first line (the code
strips its surrounding whitespace, as it does for the single-commit title),
followed by the non-empty remaining lines each indented two spaces, and no
sub-content lines for commits whose message body is empty. -/
def specItemLinesC4 (m : String) : List String :=
  match splitlines m with
  | [] => []
  | first :: rest =>
    ("- " ++ pyStrip first) :: (rest.filter nonBlank).map (fun l => "  " ++ l)

/-- From the spec, claim C4: the item lines of each commit, in the same
order as the input range. -/
def specItemsC4 : List String → List String
  | [] => []
  | m :: rest => specItemLinesC4 m ++ specItemsC4 rest

/-- From the spec, claim C4: a leading heading line containing the title, a
blank line, then the items. -/
def specBodyC4 (title : String) (msgs : List String) : String :=
  "#### " ++ title ++ "\n\n" ++ joinWith "\n" (specItemsC4 msgs)

/-- From the spec, claim C6: replace each space with a dash and keep only
characters that are alphanumeric or a dash. -/
def specDashC6 (c : Char) : Char :=
  if c = ' ' then '-' else c

/-- From the spec, claim C6: a character survives the normalizer when it is
alphanumeric or a dash. -/
def specKeepC6 (c : Char) : Bool :=
  c.isAlphanum || c == '-'

/-- From the spec, claim C6: the normalized title, built character by
character from the words of the spec. -/
def specNormalizeC6 (t : String) : String :=
  String.mk (t.data.foldr
    (fun c acc => if specKeepC6 (specDashC6 c) then specDashC6 c :: acc else acc) [])

/-! Concrete inputs used by witnesses and counterexamples. -/

/-- Oldest commit of the three-commit linear history. -/
def commitOld : Commit :=
  ⟨"aaa0", "oldest change\n"⟩

/-- Middle commit of the three-commit linear history. -/
def commitMid : Commit :=
  ⟨"bbb1", "middle change\n"⟩

/-- Newest commit of the three-commit linear history. -/
def commitNew : Commit :=
  ⟨"ccc2", "newest change\n"⟩

/-- A three-commit linear history, oldest first. -/
def histThree : List Commit :=
  [commitOld, commitMid, commitNew]

/-- A commit that no branch of the work repository contains. -/
def strayCommit : Commit :=
  ⟨"dead1234", "stray change\n"⟩

/-- A well-formed single commit with a message body. -/
def tidyCommit : Commit :=
  ⟨"feedbeef", "Tidy up\n\nDetails here\n"⟩

/-- A run over the range selection `oldest..newest` of `histThree`, with a
clean working copy, every commit on the work branch, menu choice `1` and an
affirmative confirmation. -/
def envRange : Env :=
  { hasGitDir := true, hasUpstreamRemote := true, isDirty := false,
    workBranch := "main", login := "rpardini",
    commits := rangeSelect histThree 0 2,
    branchesContaining := fun _ => ["main"],
    choiceInput := "1", newTitleInput := "", confirmInput := "y", openPRs := [] }

/-- A run whose selection holds a commit contained in no branch. -/
def envStray : Env :=
  { hasGitDir := true, hasUpstreamRemote := true, isDirty := false,
    workBranch := "main", login := "rpardini",
    commits := [strayCommit],
    branchesContaining := fun _ => ["feature-x"],
    choiceInput := "", newTitleInput := "", confirmInput := "y", openPRs := [] }

/-- A run that is clean and valid up to the final confirmation, which the
user declines. -/
def envDecline : Env :=
  { hasGitDir := true, hasUpstreamRemote := true, isDirty := false,
    workBranch := "main", login := "rpardini",
    commits := [tidyCommit],
    branchesContaining := fun _ => ["main"],
    choiceInput := "", newTitleInput := "", confirmInput := "n", openPRs := [] }

/-- A run with two commits where the user quits at the title menu. -/
def envQuit : Env :=
  { hasGitDir := true, hasUpstreamRemote := true, isDirty := false,
    workBranch := "main", login := "rpardini",
    commits := [commitMid, commitNew],
    branchesContaining := fun _ => ["main"],
    choiceInput := "q", newTitleInput := "", confirmInput := "y", openPRs := [] }

/-- A run that starts with a dirty working copy. -/
def envDirty : Env :=
  { hasGitDir := true, hasUpstreamRemote := true, isDirty := true,
    workBranch := "main", login := "rpardini",
    commits := [tidyCommit],
    branchesContaining := fun _ => ["main"],
    choiceInput := "", newTitleInput := "", confirmInput := "y", openPRs := [] }

/-- A run whose revision specification denotes zero commits. -/
def envEmptyRange : Env :=
  { hasGitDir := true, hasUpstreamRemote := true, isDirty := false,
    workBranch := "main", login := "rpardini",
    commits := [],
    branchesContaining := fun _ => ["main"],
    choiceInput := "", newTitleInput := "", confirmInput := "y", openPRs := [] }

/-- An open pull request on the same head branch by a different author. -/
def prOther : PullReq :=
  ⟨"pr/Fix-the-bug", "somebodyelse"⟩

/-- An open pull request on the head branch by the authenticated user. -/
def prMine : PullReq :=
  ⟨"pr/Fix-the-bug", "rpardini"⟩

/-! Helper lemmas shared by the claim theorems. -/

/-- Every character list begins itself. -/
theorem leadsChars_self (l : List Char) : leadsChars l l = true := by
  induction l with
  | nil => rfl
  | cons a as ih => simp [leadsChars, ih]

/-- The character data of an appended string. -/
theorem data_append_eq (a b : String) : (a ++ b).data = a.data ++ b.data := by
  cases a
  cases b
  rfl

/-- A string occurs as a substring of anything it ends. -/
theorem containsSubstring_left_append (p t : String) :
    containsSubstring (p ++ t) t = true := by
  unfold containsSubstring
  rw [List.any_eq_true]
  refine ⟨p.data.length, ?_, ?_⟩
  · rw [List.mem_range, data_append_eq, List.length_append]
    omega
  · rw [data_append_eq, List.drop_left]
    exact leadsChars_self t.data

/-- When every message has a first line, the accumulated markdown item list
of the source equals the per-commit item lines of the spec, in order. -/
theorem markdownItems_eq_spec (msgs : List String)
    (h : msgs.all (fun m => !(splitlines m).isEmpty) = true) :
    markdownItems? msgs = some (specItemsC4 msgs) := by
  induction msgs with
  | nil => rfl
  | cons m rest ih =>
    simp only [List.all_cons, Bool.and_eq_true] at h
    obtain ⟨hm, hrest⟩ := h
    cases hs : splitlines m with
    | nil => rw [hs] at hm; simp at hm
    | cons a as =>
      simp [markdownItems?, commitItemLines?, specItemsC4, specItemLinesC4, hs, ih hrest]

/-- Quitting at the title menu of a well-formed multi-commit selection. -/
theorem titleStep_quit (msgs : List String) (typed : String)
    (hlen : 1 < msgs.length)
    (hne : msgs.any (fun m => (splitlines m).isEmpty) = false) :
    titleStep msgs "q" typed = Except.error (Outcome.exit 0) := by
  simp [titleStep, hlen, hne]

/-- Mapping the space-to-dash replacement and then filtering, as the source
does, equals the single character-by-character pass of the spec wording. -/
theorem filterMapList (l : List Char) :
    (l.map (fun c => if c = ' ' then '-' else c)).filter (fun c => c.isAlphanum || c == '-')
    = l.foldr (fun c acc => if specKeepC6 (specDashC6 c) then specDashC6 c :: acc else acc) [] := by
  induction l with
  | nil => rfl
  | cons c cs ih =>
    simp only [List.map_cons, List.filter_cons, List.foldr_cons]
    rw [show (if c = ' ' then '-' else c) = specDashC6 c from rfl]
    rw [show ((specDashC6 c).isAlphanum || (specDashC6 c == '-')) = specKeepC6 (specDashC6 c) from rfl]
    rw [ih]

/-- The source's normalization equals the spec-worded one. -/
theorem normalizeTitle_eq_spec (t : String) : normalizeTitle t = specNormalizeC6 t := by
  unfold normalizeTitle specNormalizeC6
  congr 1
  exact filterMapList t.data

/-! The claim theorems. -/

/-- Claim C1 (code bug).  The claim says a range specification selects the
commits reachable from tip but not base ordered oldest to newest, and that
cherry-picks follow that order.  The selected set is right, but
`iter_commits` follows `git rev-list` and emits the range newest first: on
the history `commitOld, commitMid, commitNew`, the range from `commitOld`
to `commitNew` comes out `[commitNew, commitMid]`, not `[commitMid,
commitNew]`, and the run cherry-picks `ccc2` before `bbb1`. -/
theorem C1_range_mode_newest_first :
    rangeSelect histThree 0 2 = [commitNew, commitMid] ∧
    (([commitNew, commitMid] : List Commit) == [commitMid, commitNew]) = false ∧
    (runScript envRange).2.filter
        (fun e => match e with | Ev.cherryPick _ => true | _ => false)
      = [Ev.cherryPick "ccc2", Ev.cherryPick "bbb1"] := by
  decide

/-- Claim C2, counterexample.  On a selection holding a commit reachable
from no branch, the run does abort with exit 1, but the mutation list at
that point is not empty: the checkout, fetch and rebase of the Sync phase
have already happened, against the claim that no checkout, fetch or rebase
has been performed at the time of the abort. -/
theorem C2_counterexample :
    runScript envStray = (Outcome.exit 1, preEvents "main") ∧
    ((runScript envStray).2.isEmpty) = false ∧
    ((runScript envStray).2.contains (Ev.rebase upstreamRef "main")) = true := by
  decide

/-- Claim C2, amended.  For every selection holding a commit that fails the
branch-containment check, the operation aborts with exit 1 before any
mutation of the PR branch or the remote: the mutations performed are
exactly the Sync phase (checkout, fetch, rebase, checkout), so no branch
creation, cherry-pick or push has happened. -/
theorem C2_amended_abort_after_sync (env : Env) (h1 : env.hasGitDir = true)
    (h2 : env.hasUpstreamRemote = true) (h3 : env.isDirty = false)
    (hbad : (env.commits.map Commit.hexsha).any
      (badCommit env.workBranch env.branchesContaining) = true) :
    runScript env = (Outcome.exit 1, preEvents env.workBranch) := by
  simp [runScript, h1, h2, h3, hbad]

/-- Witness for C2: the amended theorem applied to the concrete run with a
stray commit. -/
theorem C2_witness :
    (envStray.hasGitDir = true ∧ envStray.hasUpstreamRemote = true ∧
     envStray.isDirty = false ∧
     (envStray.commits.map Commit.hexsha).any
       (badCommit envStray.workBranch envStray.branchesContaining) = true) ∧
    runScript envStray = (Outcome.exit 1, preEvents envStray.workBranch) :=
  ⟨⟨rfl, rfl, rfl, by decide⟩,
   C2_amended_abort_after_sync envStray rfl rfl rfl (by decide)⟩

/-- Claim C3.  The PR scan returns the first open pull request whose head
author login equals the authenticated login and whose head branch equals
the computed branch name — it is `List.find?` of that conjunction — and
`none` when no pull request matches; with two pull requests on the same
head branch by different authors, only the identity-matching one is
returned. -/
theorem C3_reconciler_first_match :
    (∀ (prs : List PullReq) (login branch : String),
      findExistingPR prs login branch
        = prs.find? (fun pr => pr.headUserLogin == login && pr.headRef == branch)) ∧
    findExistingPR [prOther, prMine] "rpardini" "pr/Fix-the-bug" = some prMine ∧
    findExistingPR [prOther] "rpardini" "pr/Fix-the-bug" = none := by
  refine ⟨?_, by decide, by decide⟩
  intro prs login branch
  induction prs with
  | nil => rfl
  | cons pr rest ih =>
    by_cases h1 : pr.headUserLogin = login
    · by_cases h2 : pr.headRef = branch
      · simp [findExistingPR, List.find?, h1, h2]
      · have hb2 : (pr.headRef == branch) = false := beq_eq_false_iff_ne.mpr h2
        simp [findExistingPR, List.find?, h1, hb2, ih]
    · have hb1 : (pr.headUserLogin == login) = false := beq_eq_false_iff_ne.mpr h1
      simp [findExistingPR, List.find?, hb1, ih]
      intro h
      exact absurd h h1

/-- Claim C4.  For a selection of at least two commits whose messages all
have a first line, and a single-line chosen title, the composed body is
exactly the spec-worded one: a leading heading line containing the title, a
blank line, then for each commit in input order a list item with its first
line followed by the non-empty remaining lines indented two spaces (and
nothing for commits without body lines); the heading does contain the
title as a substring. -/
theorem C4_multi_commit_body (T : String) (msgs : List String)
    (_hT : (T.data.contains '\n') = false)
    (hlen : 2 ≤ msgs.length)
    (hne : msgs.all (fun m => !(splitlines m).isEmpty) = true) :
    composeBody? msgs T = some (specBodyC4 T msgs) ∧
    containsSubstring ("#### " ++ T) T = true := by
  constructor
  · have h1 : msgs.length ≠ 1 := by omega
    simp [composeBody?, composeMulti?, markdownItems_eq_spec msgs hne, specBodyC4, h1]
  · exact containsSubstring_left_append "#### " T

/-- Witness for C4: the theorem applied to a concrete two-commit
selection. -/
theorem C4_witness :
    ((("Combined title" : String).data.contains '\n') = false ∧
     2 ≤ (["Add feature\n\nMore detail\n", "Fix bug\n"] : List String).length ∧
     (["Add feature\n\nMore detail\n", "Fix bug\n"] : List String).all
       (fun m => !(splitlines m).isEmpty) = true) ∧
    (composeBody? ["Add feature\n\nMore detail\n", "Fix bug\n"] "Combined title"
       = some (specBodyC4 "Combined title" ["Add feature\n\nMore detail\n", "Fix bug\n"]) ∧
     containsSubstring ("#### " ++ "Combined title") "Combined title" = true) :=
  ⟨⟨by decide, by decide, by decide⟩,
   C4_multi_commit_body "Combined title" ["Add feature\n\nMore detail\n", "Fix bug\n"]
     (by decide) (by decide) (by decide)⟩

/-- Claim C5.  For a selection of exactly one commit, the derived title is
the first line of its message with surrounding whitespace stripped
(whatever the interactive inputs are), and the body is exactly the
non-empty remaining lines of the message, verbatim, joined by newline —
with no list markers and no heading, since the body equals the filtered
original lines themselves. -/
theorem C5_single_commit_compose (m first title choice typed : String)
    (rest : List String) (hs : splitlines m = first :: rest) :
    titleStep [m] choice typed = Except.ok (pyStrip first) ∧
    composeBody? [m] title = some (joinWith "\n" (rest.filter nonBlank)) := by
  constructor
  · simp [titleStep, hs]
  · simp [composeBody?, composeSingleBody, hs]

/-- Witness for C5: the theorem applied to a concrete one-commit message
with surrounding whitespace on its first line and a blank body line. -/
theorem C5_witness :
    splitlines " Fix it \nDetails\n\nMore\n" = [" Fix it ", "Details", "", "More"] ∧
    (titleStep [" Fix it \nDetails\n\nMore\n"] "1" "" = Except.ok (pyStrip " Fix it ") ∧
     composeBody? [" Fix it \nDetails\n\nMore\n"] "t"
       = some (joinWith "\n" ((["Details", "", "More"] : List String).filter nonBlank))) :=
  ⟨by decide,
   C5_single_commit_compose " Fix it \nDetails\n\nMore\n" " Fix it " "t" "1" ""
     ["Details", "", "More"] (by decide)⟩

/-- Claim C6, counterexample.  `"pr/Fix-the-bug"` is an already-normalized
string (it is the normalizer's output on `"Fix the bug!!"`), yet
normalizing it again yields `"pr/prFix-the-bug"`: the `/` of the prefix is
stripped and a fresh prefix prepended, so the normalizer is not idempotent
on already-normalized strings. -/
theorem C6_counterexample :
    prBranchName "Fix the bug!!" = "pr/Fix-the-bug" ∧
    prBranchName "pr/Fix-the-bug" = "pr/prFix-the-bug" ∧
    ((prBranchName (prBranchName "Fix the bug!!") == prBranchName "Fix the bug!!")) = false := by
  decide

/-- Claim C6, amended.  The normalizer is the total function that replaces
each space with a dash, strips every character that is neither alphanumeric
nor a dash, and prepends `pr/`; it maps `"Fix the bug!!"` to
`"pr/Fix-the-bug"`, and every character after the prefix is alphanumeric or
a dash.  It is not idempotent on its own outputs (see the
counterexample). -/
theorem C6_amended_normalizer :
    (∀ t : String, prBranchName t = "pr/" ++ specNormalizeC6 t) ∧
    prBranchName "Fix the bug!!" = "pr/Fix-the-bug" ∧
    (∀ (t : String) (c : Char), c ∈ (normalizeTitle t).data →
      (c.isAlphanum || c == '-') = true) := by
  refine ⟨?_, by decide, ?_⟩
  · intro t
    rw [prBranchName, normalizeTitle_eq_spec]
  · intro t c hc
    have h2 : c ∈ (t.data.map (fun c => if c = ' ' then '-' else c)).filter
        (fun c => c.isAlphanum || c == '-') := hc
    exact (List.mem_filter.mp h2).2

/-- Claim C7.  A run that reaches the preflight gate with a dirty working
copy exits 1 having performed no mutation at all: no checkout, fetch,
rebase, branch creation, cherry-pick or push. -/
theorem C7_dirty_preflight_abort (env : Env) (h1 : env.hasGitDir = true)
    (h2 : env.hasUpstreamRemote = true) (h3 : env.isDirty = true) :
    runScript env = (Outcome.exit 1, []) := by
  simp [runScript, h1, h2, h3]

/-- Witness for C7: the theorem applied to the concrete dirty run. -/
theorem C7_witness :
    (envDirty.hasGitDir = true ∧ envDirty.hasUpstreamRemote = true ∧
     envDirty.isDirty = true) ∧
    runScript envDirty = (Outcome.exit 1, []) :=
  ⟨⟨rfl, rfl, rfl⟩, C7_dirty_preflight_abort envDirty rfl rfl rfl⟩

/-- Claim C8, counterexample.  Declining the final confirmation prompt —
which comes before the PR branch is created, so no branch creation,
cherry-pick or push is among the performed mutations — makes the script
run `sys.exit(1)`, not exit 0 as the claim states for a decline at a
prompt before the PR branch is created. -/
theorem C8_counterexample :
    (runScript envDecline).1 = Outcome.exit 1 ∧
    (((runScript envDecline).1 == Outcome.exit 0)) = false ∧
    ((runScript envDecline).2.all (fun e =>
      match e with
      | Ev.checkoutNewBranch _ _ => false
      | Ev.cherryPick _ => false
      | Ev.forcePush _ _ => false
      | _ => true)) = true := by
  decide

/-- Claim C8, amended.  Exit codes of the script: quitting with `q` at the
title menu exits 0; declining the final confirmation exits 1 even though
the PR branch has not been created at that point (only the Sync mutations
have run); an affirmative confirmation lets the run finish with exit 0 and
the full mutation sequence; and a dirty working copy exits 1 as a
precondition failure. -/
theorem C8_amended_exit_codes :
    (∀ env : Env, env.hasGitDir = true → env.hasUpstreamRemote = true →
      env.isDirty = false →
      (env.commits.map Commit.hexsha).any
        (badCommit env.workBranch env.branchesContaining) = false →
      1 < env.commits.length →
      (env.commits.map Commit.message).any
        (fun m => (splitlines m).isEmpty) = false →
      env.choiceInput = "q" →
      runScript env = (Outcome.exit 0, preEvents env.workBranch)) ∧
    (∀ (env : Env) (c : Commit) (l : String) (ls : List String),
      env.hasGitDir = true → env.hasUpstreamRemote = true →
      env.isDirty = false → env.commits = [c] →
      splitlines c.message = l :: ls →
      badCommit env.workBranch env.branchesContaining c.hexsha = false →
      ¬(env.confirmInput = "y") →
      runScript env = (Outcome.exit 1, preEvents env.workBranch)) ∧
    (∀ (env : Env) (c : Commit) (l : String) (ls : List String),
      env.hasGitDir = true → env.hasUpstreamRemote = true →
      env.isDirty = false → env.commits = [c] →
      splitlines c.message = l :: ls →
      badCommit env.workBranch env.branchesContaining c.hexsha = false →
      env.confirmInput = "y" → env.openPRs = [] →
      runScript env = (Outcome.exit 0,
        preEvents env.workBranch ++
          [Ev.checkoutNewBranch (prBranchName (pyStrip l)) upstreamRef,
           Ev.cherryPick c.hexsha,
           Ev.forcePush env.login (prBranchName (pyStrip l)),
           Ev.createPR, Ev.checkout env.workBranch])) ∧
    (∀ env : Env, env.hasGitDir = true → env.hasUpstreamRemote = true →
      env.isDirty = true → runScript env = (Outcome.exit 1, [])) := by
  refine ⟨?_, ?_, ?_, ?_⟩
  · intro env h1 h2 h3 hval hlen hmenu hq
    have ht := titleStep_quit (env.commits.map Commit.message) env.newTitleInput
      (by simpa using hlen) hmenu
    simp [runScript, h1, h2, h3, hval, hq, ht]
  · intro env c l ls h1 h2 h3 hc hs hgood hconf
    simp [runScript, h1, h2, h3, hc, hgood, hconf, titleStep, hs, composeBody?]
  · intro env c l ls h1 h2 h3 hc hs hgood hconf hprs
    simp [runScript, h1, h2, h3, hc, hgood, hconf, hprs, titleStep, hs,
      composeBody?, findExistingPR]
  · intro env h1 h2 h3
    simp [runScript, h1, h2, h3]

/-- Witness for C8: the amended theorem applied to the concrete quit run
and to the concrete declined run. -/
theorem C8_witness :
    runScript envQuit = (Outcome.exit 0, preEvents envQuit.workBranch) ∧
    runScript envDecline = (Outcome.exit 1, preEvents envDecline.workBranch) := by
  constructor
  · exact C8_amended_exit_codes.1 envQuit rfl rfl rfl (by decide) (by decide)
      (by decide) rfl
  · exact C8_amended_exit_codes.2.1 envDecline tidyCommit "Tidy up"
      ["", "Details here"] rfl rfl rfl rfl (by decide) (by decide) (by decide)

/-- Claim C9.  The validator accepts a commit exactly when the work branch
name occurs as a substring of the `git branch --contains` output; hence it
accepts a commit contained only in `main-backup` while the work branch is
`main`, a branch the commit is not on. -/
theorem C9_substring_branch_check :
    (∀ workBranch output,
      workBranchCheck workBranch output = containsSubstring output workBranch) ∧
    workBranchCheck "main" (branchContainsOutput "main" ["main-backup"]) = true ∧
    (["main-backup"].contains "main") = false :=
  ⟨fun _ _ => rfl, by decide, by decide⟩

/-- Claim C10.  A range from a revision to itself denotes zero commits, the
empty selection passes the containment loop vacuously, and the run then
crashes with an uncaught `IndexError` at `commit_messages[0]` — after the
Sync mutations, without a clean abort. -/
theorem C10_empty_range_crash (env : Env) (hist : List Commit) (n : Nat)
    (h1 : env.hasGitDir = true) (h2 : env.hasUpstreamRemote = true)
    (h3 : env.isDirty = false) (hc : env.commits = []) :
    rangeSelect hist n n = [] ∧
    runScript env = (Outcome.crash, preEvents env.workBranch) := by
  constructor
  · simp [rangeSelect]
  · simp [runScript, h1, h2, h3, hc, titleStep]

/-- Witness for C10: the theorem applied to the concrete empty-range run. -/
theorem C10_witness :
    (envEmptyRange.hasGitDir = true ∧ envEmptyRange.hasUpstreamRemote = true ∧
     envEmptyRange.isDirty = false ∧ envEmptyRange.commits = []) ∧
    (rangeSelect histThree 2 2 = [] ∧
     runScript envEmptyRange = (Outcome.crash, preEvents envEmptyRange.workBranch)) :=
  ⟨⟨rfl, rfl, rfl, rfl⟩,
   C10_empty_range_crash envEmptyRange histThree 2 rfl rfl rfl rfl⟩

end Prtool
